import Mathlib

/-!
# Verification of the announcements CRUD service

Shallow embedding of `src/backend/routers/announcements.py`: a CRUD HTTP API
for announcement records backed by a document store, with lookup-based
authorization against a second collection (`teachers_collection`).

Modelling choices:
* A stored document is a record of five fields.  `payload.get(k)` in Python
  returns `None` both when the key is absent and when its value is JSON null,
  so an absent-or-null field is `none` and a string value is `some s`.
* The announcements collection is a `List Announcement`; `insert_one` appends,
  `find_one {_id: x}` is `List.find?`, `update_one`/`delete_one` act on the
  first matching document (MongoDB single-document operations; `_id` is a
  unique key, so at most one document matches in any reachable store).
* The teachers collection only ever serves existence lookups by `_id`, so it
  is a `List String` of identity keys.
* MongoDB string comparison (`$gte`/`$lte` and the sort on `expiration_date`)
  is lexicographic; `$gte`/`$lte` with a string operand only match string
  values (type bracketing), and in the ascending sort missing/null keys come
  before all strings.  Both are modelled over `Option String`.
* `date.today().isoformat()` is injected as an explicit `today : String`
  parameter.
* `raise HTTPException` aborts the request before any later store call, so
  each handler returns `Except HTTPError out × List Announcement`: the result
  (or error) together with the announcements store after the call.
-/

namespace Announcements

/-- Lexicographic comparison of character lists by code point, the order
MongoDB and Python use on the ASCII date strings this service compares. -/
def strLeAux : List Char → List Char → Bool
  | [], _ => true
  | _ :: _, [] => false
  | a :: as, b :: bs =>
    if a < b then true else if b < a then false else strLeAux as bs

/-- Lexicographic `≤` on strings (executable; agrees with code-point order). -/
def strLe (a b : String) : Bool :=
  strLeAux a.data b.data

/-- A stored announcement document, as built by `create_announcement`. -/
structure Announcement where
  _id : String
  text : Option String
  start_date : Option String
  expiration_date : Option String
  created_by : Option String
deriving DecidableEq, Repr

/-- The JSON shape produced by `_serialize`. -/
structure Serialized where
  id : String
  text : Option String
  start_date : Option String
  expiration_date : Option String
  created_by : Option String
deriving DecidableEq, Repr

/-- Transcription of `_serialize(doc)`: copies the five fields, renaming
`_id` to `id`. -/
def _serialize (doc : Announcement) : Serialized :=
  { id := doc._id
    text := doc.text
    start_date := doc.start_date
    expiration_date := doc.expiration_date
    created_by := doc.created_by }

/-- A request body (`payload : Dict[str, Any]`): the three fields the
handlers read with `payload.get`; `none` is absent-or-null. -/
structure Payload where
  text : Option String
  start_date : Option String
  expiration_date : Option String
deriving DecidableEq, Repr

/-- The `HTTPException` status codes raised by the handlers.  `serverError`
stands for the 500 Python would produce if `_serialize` were reached with
`None` (the re-read in `update_announcement` finding nothing); it is proved
unreachable below. -/
inductive HTTPError where
  | unauthorized
  | badRequest
  | notFound
  | serverError
deriving DecidableEq, Repr

/-- MongoDB ascending order on an optional string sort key: missing/null
keys sort before every string, strings compare lexicographically. -/
def mongoLe : Option String → Option String → Prop
  | none, _ => True
  | some _, none => False
  | some a, some b => strLe a b = true

instance : DecidableRel mongoLe := fun a b => by
  cases a <;> cases b <;> simp only [mongoLe] <;> infer_instance

/-- Sort relation used by `.sort("expiration_date", 1)` on documents. -/
def expLe (a b : Announcement) : Prop :=
  mongoLe a.expiration_date b.expiration_date

instance : DecidableRel expLe := fun a b => by
  unfold expLe; infer_instance

/-- The same sort relation read off serialized documents. -/
def serLe (a b : Serialized) : Prop :=
  mongoLe a.expiration_date b.expiration_date

instance : DecidableRel serLe := fun a b => by
  unfold serLe; infer_instance

/-- The MongoDB query of `get_active_announcements`:
`expiration_date >= today` ($gte on a string matches only string values)
and (`start_date <= today` or `start_date` null or `start_date` missing). -/
def activeQuery (today : String) (d : Announcement) : Bool :=
  (match d.expiration_date with
   | some e => strLe today e
   | none => false)
  &&
  (match d.start_date with
   | some s => strLe s today
   | none => true)

/-- Handler for `GET /announcements`: filter by `activeQuery`, sort ascending by
`expiration_date`, serialize. -/
def get_active_announcements (today : String) (store : List Announcement) :
    List Serialized :=
  (List.insertionSort expLe (store.filter (activeQuery today))).map _serialize

/-- Handler for `GET /announcements/all`: every document, sorted ascending by
`expiration_date`, serialized. -/
def get_all_announcements (store : List Announcement) : List Serialized :=
  (List.insertionSort expLe store).map _serialize

/-- Python truthiness of `teacher_username : Optional[str]` / of a
`payload.get` result: `None` and `""` are falsy. -/
def pyFalsy : Option String → Bool
  | none => true
  | some s => s = ""

/-- Transcription of `teachers_collection.find_one({"_id": u})`. -/
def teachersFindOne (teachers : List String) (u : String) : Option String :=
  teachers.find? (fun t => t = u)

/-- Handler for `POST /announcements`.  `newId` stands for the freshly drawn
`str(uuid.uuid4())`. -/
def create_announcement (teachers : List String) (store : List Announcement)
    (payload : Payload) (teacher_username : Option String) (newId : String) :
    Except HTTPError Serialized × List Announcement :=
  -- `if not teacher_username: raise 401`
  if pyFalsy teacher_username then (.error .unauthorized, store)
  else
    match teacher_username with
    | none => (.error .unauthorized, store)
    | some u =>
      -- `teacher = teachers_collection.find_one(...); if not teacher: raise 401`
      if (teachersFindOne teachers u).isNone then (.error .unauthorized, store)
      else
        -- `if not expiration_date: raise 400`
        if pyFalsy payload.expiration_date then (.error .badRequest, store)
        else
          let new_doc : Announcement :=
            { _id := newId
              text := payload.text
              start_date := payload.start_date
              expiration_date := payload.expiration_date
              created_by := some u }
          (.ok (_serialize new_doc), store ++ [new_doc])

/-- Effect of `update_one({"_id": id}, {"$set": update_fields})` applied to a single
document: each field present in `update_fields` (i.e. not `None` in the
payload) replaces the stored one. -/
def applySet (payload : Payload) (d : Announcement) : Announcement :=
  { d with
    text := if payload.text.isSome then payload.text else d.text
    start_date := if payload.start_date.isSome then payload.start_date else d.start_date
    expiration_date :=
      if payload.expiration_date.isSome then payload.expiration_date else d.expiration_date }

/-- MongoDB `update_one` updates the first document matching `_id`. -/
def updateFirst (store : List Announcement) (i : String) (payload : Payload) :
    List Announcement :=
  match store with
  | [] => []
  | d :: rest =>
    if d._id = i then applySet payload d :: rest
    else d :: updateFirst rest i payload

/-- Handler for `PUT /announcements/{announcement_id}`. -/
def update_announcement (teachers : List String) (store : List Announcement)
    (announcement_id : String) (payload : Payload)
    (teacher_username : Option String) :
    Except HTTPError Serialized × List Announcement :=
  if pyFalsy teacher_username then (.error .unauthorized, store)
  else
    match teacher_username with
    | none => (.error .unauthorized, store)
    | some u =>
      if (teachersFindOne teachers u).isNone then (.error .unauthorized, store)
      else
        -- `doc = announcements_collection.find_one(...); if not doc: raise 404`
        match store.find? (fun d => d._id = announcement_id) with
        | none => (.error .notFound, store)
        | some _ =>
          -- build `update_fields` from the non-None payload entries
          if !payload.text.isSome && !payload.start_date.isSome
              && !payload.expiration_date.isSome then
            (.error .badRequest, store)
          else
            let store2 := updateFirst store announcement_id payload
            -- `updated = find_one(...)` re-read; `_serialize(None)` would be a 500
            match store2.find? (fun d => d._id = announcement_id) with
            | none => (.error .serverError, store2)
            | some updated => (.ok (_serialize updated), store2)

/-- MongoDB `delete_one({"_id": id})` removes the first matching document. -/
def eraseFirstId (store : List Announcement) (i : String) : List Announcement :=
  match store with
  | [] => []
  | d :: rest => if d._id = i then rest else d :: eraseFirstId rest i

/-- Handler for `DELETE /announcements/{announcement_id}`; the success body is
`{"message": "Announcement deleted"}`. -/
def delete_announcement (teachers : List String) (store : List Announcement)
    (announcement_id : String) (teacher_username : Option String) :
    Except HTTPError String × List Announcement :=
  if pyFalsy teacher_username then (.error .unauthorized, store)
  else
    match teacher_username with
    | none => (.error .unauthorized, store)
    | some u =>
      if (teachersFindOne teachers u).isNone then (.error .unauthorized, store)
      else
        -- `result = delete_one(...); if result.deleted_count == 0: raise 404`
        if (store.find? (fun d => d._id = announcement_id)).isSome then
          (.ok "Announcement deleted", eraseFirstId store announcement_id)
        else (.error .notFound, store)

/-! ## Order facts about the sort relation -/

theorem strLeAux_total : ∀ as bs, strLeAux as bs = true ∨ strLeAux bs as = true
  | [], _ => Or.inl rfl
  | _ :: _, [] => Or.inr rfl
  | a :: as, b :: bs => by
    rcases lt_trichotomy a b with hab | hab | hab
    · left
      simp [strLeAux, hab]
    · subst hab
      rcases strLeAux_total as bs with h | h
      · left
        simp [strLeAux, lt_irrefl, h]
      · right
        simp [strLeAux, lt_irrefl, h]
    · right
      simp [strLeAux, hab]

theorem strLeAux_trans : ∀ as bs cs, strLeAux as bs = true → strLeAux bs cs = true →
    strLeAux as cs = true
  | [], _, _, _, _ => rfl
  | _ :: _, [], _, h1, _ => by simp [strLeAux] at h1
  | _ :: _, _ :: _, [], _, h2 => by simp [strLeAux] at h2
  | a :: as, b :: bs, c :: cs, h1, h2 => by
    simp only [strLeAux] at h1 h2 ⊢
    by_cases hab : a < b
    · by_cases hbc : b < c
      · simp [lt_trans hab hbc]
      · by_cases hcb : c < b
        · simp [if_neg hbc, if_pos hcb] at h2
        · have hbc' : b = c := le_antisymm (not_lt.mp hcb) (not_lt.mp hbc)
          subst hbc'
          simp [hab]
    · by_cases hba : b < a
      · simp [if_neg hab, if_pos hba] at h1
      · have hab' : a = b := le_antisymm (not_lt.mp hba) (not_lt.mp hab)
        subst hab'
        rw [if_neg (lt_irrefl a), if_neg (lt_irrefl a)] at h1
        by_cases hac : a < c
        · simp [hac]
        · by_cases hca : c < a
          · simp [if_neg hac, if_pos hca] at h2
          · rw [if_neg hac, if_neg hca] at h2 ⊢
            exact strLeAux_trans as bs cs h1 h2

theorem strLe_total (a b : String) : strLe a b = true ∨ strLe b a = true :=
  strLeAux_total a.data b.data

theorem strLe_trans {a b c : String} (h1 : strLe a b = true) (h2 : strLe b c = true) :
    strLe a c = true :=
  strLeAux_trans a.data b.data c.data h1 h2

theorem mongoLe_total (a b : Option String) : mongoLe a b ∨ mongoLe b a := by
  cases a <;> cases b <;> simp only [mongoLe]
  · exact Or.inl trivial
  · exact Or.inl trivial
  · exact Or.inr trivial
  · exact strLe_total _ _

theorem mongoLe_trans {a b c : Option String} (h1 : mongoLe a b) (h2 : mongoLe b c) :
    mongoLe a c := by
  cases a <;> cases b <;> cases c <;> simp only [mongoLe] at h1 h2 ⊢
  exact strLe_trans h1 h2

instance : IsTotal Announcement expLe :=
  ⟨fun a b => mongoLe_total a.expiration_date b.expiration_date⟩

instance : IsTrans Announcement expLe :=
  ⟨fun _ _ _ h1 h2 => mongoLe_trans h1 h2⟩

instance : IsTotal Serialized serLe :=
  ⟨fun a b => mongoLe_total a.expiration_date b.expiration_date⟩

instance : IsTrans Serialized serLe :=
  ⟨fun _ _ _ h1 h2 => mongoLe_trans h1 h2⟩

/-! ## Helper lemmas about the embedded store operations -/

theorem applySet_id (p : Payload) (d : Announcement) : (applySet p d)._id = d._id := rfl

theorem applySet_created_by (p : Payload) (d : Announcement) :
    (applySet p d).created_by = d.created_by := rfl

theorem pyFalsy_false {u : String} (hu : u ≠ "") : pyFalsy (some u) = false := by
  simp [pyFalsy, hu]

theorem teachersFindOne_not_isNone {teachers : List String} {u : String}
    (hmem : u ∈ teachers) : (teachersFindOne teachers u).isNone = false := by
  have hs : (teachers.find? (fun t => t = u)).isSome :=
    List.find?_isSome.mpr ⟨u, hmem, by simp⟩
  obtain ⟨v, hv⟩ := Option.isSome_iff_exists.mp hs
  simp [teachersFindOne, hv]

theorem teachersFindOne_isNone {teachers : List String} {u : String}
    (h : u ∉ teachers) : (teachersFindOne teachers u).isNone = true := by
  have hn : teachers.find? (fun t => t = u) = none :=
    List.find?_eq_none.mpr (fun x hx => by
      simp only [decide_eq_true_eq]
      rintro rfl
      exact h hx)
  simp [teachersFindOne, hn]

theorem find?_id_eq_some (store : List Announcement) (i : String) (d : Announcement)
    (hnodup : (store.map (fun x => x._id)).Nodup) (hd : d ∈ store) (hdi : d._id = i) :
    store.find? (fun x => x._id = i) = some d := by
  induction store with
  | nil => cases hd
  | cons a t ih =>
    rw [List.map_cons, List.nodup_cons] at hnodup
    obtain ⟨hhead, htail⟩ := hnodup
    by_cases hh : a._id = i
    · have hda : d = a := by
        rcases List.mem_cons.mp hd with h1 | h1
        · exact h1
        · exact absurd (show a._id ∈ t.map (fun x => x._id) by
            rw [hh, ← hdi]; exact List.mem_map_of_mem _ h1) hhead
      subst hda
      exact List.find?_cons_of_pos t (by simp [hh])
    · have hdt : d ∈ t := by
        rcases List.mem_cons.mp hd with h1 | h1
        · exact absurd (h1 ▸ hdi) hh
        · exact h1
      rw [List.find?_cons_of_neg t (by simp [hh])]
      exact ih htail hdt

theorem find?_updateFirst (store : List Announcement) (i : String) (p : Payload)
    (d : Announcement) (h : store.find? (fun x => x._id = i) = some d) :
    (updateFirst store i p).find? (fun x => x._id = i) = some (applySet p d) := by
  induction store with
  | nil => simp [List.find?] at h
  | cons a t ih =>
    by_cases hh : a._id = i
    · rw [List.find?_cons_of_pos t (by simp [hh])] at h
      injection h with h
      subst h
      simp only [updateFirst, if_pos hh]
      exact List.find?_cons_of_pos t (by simp [applySet_id, hh])
    · rw [List.find?_cons_of_neg t (by simp [hh])] at h
      simp only [updateFirst, if_neg hh]
      rw [List.find?_cons_of_neg _ (by simp [hh])]
      exact ih h

theorem updateFirst_eq_map (store : List Announcement) (i : String) (p : Payload)
    (hnodup : (store.map (fun x => x._id)).Nodup) :
    updateFirst store i p =
      store.map (fun x => if x._id = i then applySet p x else x) := by
  induction store with
  | nil => rfl
  | cons a t ih =>
    rw [List.map_cons, List.nodup_cons] at hnodup
    obtain ⟨hhead, htail⟩ := hnodup
    by_cases hh : a._id = i
    · simp only [updateFirst, if_pos hh, List.map_cons]
      congr 1
      have hfix : ∀ x ∈ t, (if x._id = i then applySet p x else x) = x := by
        intro x hx
        rw [if_neg]
        intro hxi
        exact hhead (show a._id ∈ t.map (fun y => y._id) by
          rw [hh, ← hxi]; exact List.mem_map_of_mem _ hx)
      rw [List.map_congr_left hfix]
      simp
    · simp only [updateFirst, if_neg hh, List.map_cons]
      rw [ih htail]

theorem eraseFirstId_spec (store : List Announcement) (i : String) (d : Announcement)
    (hnodup : (store.map (fun x => x._id)).Nodup) (hd : d ∈ store) (hdi : d._id = i) :
    (∀ x ∈ eraseFirstId store i, x._id ≠ i) ∧
    (∀ x ∈ store, x ≠ d → x ∈ eraseFirstId store i) := by
  induction store with
  | nil => cases hd
  | cons a t ih =>
    rw [List.map_cons, List.nodup_cons] at hnodup
    obtain ⟨hhead, htail⟩ := hnodup
    by_cases hh : a._id = i
    · have hda : d = a := by
        rcases List.mem_cons.mp hd with h1 | h1
        · exact h1
        · exact absurd (show a._id ∈ t.map (fun x => x._id) by
            rw [hh, ← hdi]; exact List.mem_map_of_mem _ h1) hhead
      subst hda
      constructor
      · intro x hx hxi
        simp only [eraseFirstId, if_pos hh] at hx
        exact hhead (show d._id ∈ t.map (fun y => y._id) by
          rw [hh, ← hxi]; exact List.mem_map_of_mem _ hx)
      · intro x hx hxd
        simp only [eraseFirstId, if_pos hh]
        rcases List.mem_cons.mp hx with h1 | h1
        · exact absurd h1 hxd
        · exact h1
    · have hdt : d ∈ t := by
        rcases List.mem_cons.mp hd with h1 | h1
        · exact absurd (h1 ▸ hdi) hh
        · exact h1
      have hIH := ih htail hdt
      constructor
      · intro x hx
        simp only [eraseFirstId, if_neg hh] at hx
        rcases List.mem_cons.mp hx with h1 | h1
        · subst h1; exact hh
        · exact hIH.1 x h1
      · intro x hx hxd
        simp only [eraseFirstId, if_neg hh]
        rcases List.mem_cons.mp hx with h1 | h1
        · subst h1; exact List.mem_cons_self _ _
        · exact List.mem_cons_of_mem _ (hIH.2 x h1 hxd)

theorem sorted_map_serialize (l : List Announcement) (h : List.Sorted expLe l) :
    List.Sorted serLe (l.map _serialize) :=
  List.Pairwise.map _serialize (fun _ _ hab => hab) h

/-- Spec-side activity predicate, transcribed from the spec's own words
("`expiration_date >= today` and (`start_date` absent or `<= today`)"), to
be compared against the code's `activeQuery`. -/
def specActive (today : String) (d : Announcement) : Prop :=
  (∃ e, d.expiration_date = some e ∧ strLe today e = true) ∧
  (d.start_date = none ∨ ∃ s, d.start_date = some s ∧ strLe s today = true)

theorem activeQuery_iff_specActive (today : String) (d : Announcement) :
    activeQuery today d = true ↔ specActive today d := by
  unfold activeQuery specActive
  cases he : d.expiration_date <;> cases hs : d.start_date <;> simp

/-! ## Claim theorems -/

/-- C1: for every state of the announcement store and every current date,
`list_active()` returns exactly the (serialized) announcements whose
`expiration_date` is `>= today` (string comparison) and whose `start_date`
is absent, null, or `<= today`, and the returned sequence is ordered
non-decreasing by `expiration_date`. -/
theorem C1_list_active_spec (today : String) (store : List Announcement) :
    (∀ s, s ∈ get_active_announcements today store ↔
        ∃ d, d ∈ store ∧ specActive today d ∧ s = _serialize d)
    ∧ (get_active_announcements today store).Perm
        ((store.filter (activeQuery today)).map _serialize)
    ∧ List.Sorted serLe (get_active_announcements today store) := by
  refine ⟨?_, ?_, ?_⟩
  · intro s
    unfold get_active_announcements
    simp only [List.mem_map, List.mem_insertionSort, List.mem_filter]
    constructor
    · rintro ⟨d, ⟨hd, hq⟩, rfl⟩
      exact ⟨d, hd, (activeQuery_iff_specActive today d).mp hq, rfl⟩
    · rintro ⟨d, hd, hq, rfl⟩
      exact ⟨d, ⟨hd, (activeQuery_iff_specActive today d).mpr hq⟩, rfl⟩
  · exact (List.perm_insertionSort expLe _).map _serialize
  · exact sorted_map_serialize _ (List.sorted_insertionSort expLe _)

/-- C9: `list_all()` returns every stored announcement with no filtering,
ordered non-decreasing by `expiration_date`; its result contains every
record `list_active()` returns, and both carry the same sort order. -/
theorem C9_list_all_spec (today : String) (store : List Announcement) :
    (get_all_announcements store).Perm (store.map _serialize)
    ∧ List.Sorted serLe (get_all_announcements store)
    ∧ (∀ s ∈ get_active_announcements today store, s ∈ get_all_announcements store)
    ∧ List.Sorted serLe (get_active_announcements today store) := by
  refine ⟨(List.perm_insertionSort expLe store).map _serialize,
          sorted_map_serialize _ (List.sorted_insertionSort expLe store), ?_,
          sorted_map_serialize _ (List.sorted_insertionSort expLe _)⟩
  intro s hs
  unfold get_active_announcements at hs
  unfold get_all_announcements
  simp only [List.mem_map, List.mem_insertionSort, List.mem_filter] at hs ⊢
  obtain ⟨d, ⟨hd, _⟩, rfl⟩ := hs
  exact ⟨d, hd, rfl⟩

/-- Witness for C9: on a concrete store, a record returned by
`list_active` is in the `list_all` result. -/
theorem C9_list_all_witness :
    _serialize { _id := "a1", text := none, start_date := none,
                 expiration_date := some "2099-01-01", created_by := some "t" }
      ∈ get_all_announcements
          [{ _id := "a1", text := none, start_date := none,
             expiration_date := some "2099-01-01", created_by := some "t" }] := by
  have h := C9_list_all_spec "2026-10-12"
    [{ _id := "a1", text := none, start_date := none,
       expiration_date := some "2099-01-01", created_by := some "t" }]
  exact h.2.2.1 _ (by decide)

/-- C2: for an authorized caller and a payload with a non-empty
`expiration_date`, `create` persists and returns a record whose id is the
freshly generated string (non-empty and unique in the store), whose `text`,
`start_date`, `expiration_date` are taken verbatim from the payload (null
when absent), and whose `created_by` is the caller identity. -/
theorem C2_create_spec (teachers : List String) (store : List Announcement)
    (payload : Payload) (u newId e : String)
    (hu : u ≠ "") (hmem : u ∈ teachers)
    (hexp : payload.expiration_date = some e) (he : e ≠ "")
    (hfresh : ∀ d ∈ store, d._id ≠ newId) (hid : newId ≠ "") :
    create_announcement teachers store payload (some u) newId =
      (.ok { id := newId, text := payload.text, start_date := payload.start_date,
             expiration_date := some e, created_by := some u },
       store ++ [{ _id := newId, text := payload.text, start_date := payload.start_date,
                   expiration_date := some e, created_by := some u }])
    ∧ newId ≠ ""
    ∧ (store ++ [{ _id := newId, text := payload.text, start_date := payload.start_date,
                   expiration_date := some e, created_by := some u
                   : Announcement }]).countP (fun d => d._id = newId) = 1 := by
  have h1 : pyFalsy (some u) = false := pyFalsy_false hu
  have h2 := teachersFindOne_not_isNone hmem
  have h3 : pyFalsy (some e) = false := by
    simp [pyFalsy, he]
  refine ⟨?_, hid, ?_⟩
  · simp [create_announcement, h1, h2, h3, _serialize, hexp]
  · rw [List.countP_append]
    have hz : List.countP (fun d => decide (d._id = newId)) store = 0 :=
      List.countP_eq_zero.mpr (fun d hd => by simpa using hfresh d hd)
    rw [hz]
    simp [List.countP, List.countP.go]

/-- Witness for C2 at a concrete store and payload. -/
theorem C2_create_witness :
    create_announcement ["ms_lopez"] []
      ⟨none, none, some "2099-01-01"⟩ (some "ms_lopez") "n-1"
      = (.ok { id := "n-1", text := none, start_date := none,
               expiration_date := some "2099-01-01", created_by := some "ms_lopez" },
         [{ _id := "n-1", text := none, start_date := none,
            expiration_date := some "2099-01-01", created_by := some "ms_lopez" }]) := by
  have h := C2_create_spec ["ms_lopez"] [] ⟨none, none, some "2099-01-01"⟩
    "ms_lopez" "n-1" "2099-01-01" (by decide) (by simp) rfl (by decide)
    (by simp) (by decide)
  simpa using h.1

/-- C6: for an authorized caller, `create` fails with `BadRequest` if and only
if `expiration_date` is missing, null, or empty in the payload, regardless of
`text` and `start_date`, and in that case nothing is inserted. -/
theorem C6_create_badRequest_iff (teachers : List String) (store : List Announcement)
    (payload : Payload) (u newId : String)
    (hu : u ≠ "") (hmem : u ∈ teachers) :
    ((create_announcement teachers store payload (some u) newId).1 = .error .badRequest
      ↔ payload.expiration_date = none ∨ payload.expiration_date = some "")
    ∧ ((create_announcement teachers store payload (some u) newId).1 = .error .badRequest →
        (create_announcement teachers store payload (some u) newId).2 = store) := by
  have h1 : pyFalsy (some u) = false := pyFalsy_false hu
  have h2 := teachersFindOne_not_isNone hmem
  have hiff : pyFalsy payload.expiration_date = true ↔
      (payload.expiration_date = none ∨ payload.expiration_date = some "") := by
    cases hp : payload.expiration_date <;> simp [pyFalsy]
  cases hb : pyFalsy payload.expiration_date with
  | false =>
    have hc : create_announcement teachers store payload (some u) newId =
        (.ok (_serialize
            { _id := newId
              text := payload.text
              start_date := payload.start_date
              expiration_date := payload.expiration_date
              created_by := some u }),
         store ++
          [{ _id := newId
             text := payload.text
             start_date := payload.start_date
             expiration_date := payload.expiration_date
             created_by := some u }]) := by
      simp [create_announcement, h1, h2, hb]
    have hne : ¬(payload.expiration_date = none ∨ payload.expiration_date = some "") := by
      rw [← hiff, hb]; simp
    rw [hc]
    simp [hne]
  | true =>
    have hc : create_announcement teachers store payload (some u) newId =
        (.error .badRequest, store) := by
      simp [create_announcement, h1, h2, hb]
    rw [hc]
    simp [hiff.mp hb]

/-- Witness for C6: create without `expiration_date` but with other fields. -/
theorem C6_create_witness :
    (create_announcement ["t"] [] ⟨some "hello", some "2020-01-01", none⟩
        (some "t") "n").1 = .error .badRequest
    ∧ (create_announcement ["t"] [] ⟨some "hello", some "2020-01-01", none⟩
        (some "t") "n").2 = [] := by
  have h := C6_create_badRequest_iff ["t"] [] ⟨some "hello", some "2020-01-01", none⟩
    "t" "n" (by decide) (by simp)
  have h1 := h.1.mpr (Or.inl rfl)
  exact ⟨h1, h.2 h1⟩

/-- C7: for an authorized caller and any payload (including an empty one),
`update` on an id with no matching announcement fails with `NotFound` and
leaves the store unchanged; the existence check precedes payload validation,
so `NotFound` takes priority over `BadRequest`. -/
theorem C7_update_notFound (teachers : List String) (store : List Announcement)
    (i : String) (payload : Payload) (u : String)
    (hu : u ≠ "") (hmem : u ∈ teachers)
    (habs : ∀ d ∈ store, d._id ≠ i) :
    update_announcement teachers store i payload (some u) = (.error .notFound, store) := by
  have h1 : pyFalsy (some u) = false := pyFalsy_false hu
  have h2 := teachersFindOne_not_isNone hmem
  have hfind : store.find? (fun d => d._id = i) = none :=
    List.find?_eq_none.mpr (fun d hd => by simpa using habs d hd)
  simp [update_announcement, h1, h2, hfind]

/-- Witness for C7: updating a missing id with an empty payload is
`NotFound`, not `BadRequest`. -/
theorem C7_update_witness :
    update_announcement ["t"]
      [{ _id := "b", text := none, start_date := none,
         expiration_date := some "2030-01-01", created_by := some "t" }]
      "a" ⟨none, none, none⟩ (some "t")
      = (.error .notFound,
         [{ _id := "b", text := none, start_date := none,
            expiration_date := some "2030-01-01", created_by := some "t" }]) :=
  C7_update_notFound ["t"] _ "a" ⟨none, none, none⟩ "t" (by decide) (by simp)
    (by simp)

/-- With a non-empty caller identity found in the teachers store, `create`
never answers 401. -/
theorem create_not_unauthorized (teachers : List String) (store : List Announcement)
    (payload : Payload) (u newId : String) (hu : u ≠ "") (hmem : u ∈ teachers) :
    (create_announcement teachers store payload (some u) newId).1
      ≠ .error .unauthorized := by
  have h1 : pyFalsy (some u) = false := pyFalsy_false hu
  have h2 := teachersFindOne_not_isNone hmem
  cases hb : pyFalsy payload.expiration_date with
  | true => simp [create_announcement, h1, h2, hb]
  | false => simp [create_announcement, h1, h2, hb]

/-- With a non-empty caller identity found in the teachers store, `update`
never answers 401. -/
theorem update_not_unauthorized (teachers : List String) (store : List Announcement)
    (i : String) (payload : Payload) (u : String) (hu : u ≠ "") (hmem : u ∈ teachers) :
    (update_announcement teachers store i payload (some u)).1
      ≠ .error .unauthorized := by
  have h1 : pyFalsy (some u) = false := pyFalsy_false hu
  have h2 := teachersFindOne_not_isNone hmem
  rcases hf : store.find? (fun d => d._id = i) with _ | d
  · simp [update_announcement, h1, h2, hf]
  · simp [update_announcement, h1, h2, hf]
    split
    · simp
    · split <;> simp

/-- With a non-empty caller identity found in the teachers store, `delete`
never answers 401. -/
theorem delete_not_unauthorized (teachers : List String) (store : List Announcement)
    (i : String) (u : String) (hu : u ≠ "") (hmem : u ∈ teachers) :
    (delete_announcement teachers store i (some u)).1 ≠ .error .unauthorized := by
  have h1 : pyFalsy (some u) = false := pyFalsy_false hu
  have h2 := teachersFindOne_not_isNone hmem
  by_cases hf : (store.find? (fun d => d._id = i)).isSome = true
  · simp [delete_announcement, h1, h2, hf]
  · simp [delete_announcement, h1, h2, hf]

/-- C4 counterexample: with a caller identity that is the empty string and an
authorized-identity store that contains the empty string, the identity is
present and does exist in the store, yet `create` still fails with
`Unauthorized` (Python's `if not teacher_username` treats `""` as missing).
This falsifies the claimed "if and only if". -/
theorem C4_counterexample :
    ((some "" : Option String) ≠ none)
    ∧ ("" ∈ [""])
    ∧ (create_announcement [""] [] ⟨none, none, some "2099-01-01"⟩ (some "") "n").1
        = .error .unauthorized := by
  refine ⟨by simp, by simp, ?_⟩
  rfl

/-- Condition under which the handlers answer 401: caller identity absent,
empty, or not present in the authorized-identity (teachers) store. -/
def authRejected (teachers : List String) (tu : Option String) : Prop :=
  match tu with
  | none => True
  | some u => u = "" ∨ u ∉ teachers

/-- C4 (amended): each of `create`, `update`, `delete` fails with
`Unauthorized` if and only if the caller identity is absent, empty, or does
not exist in the authorized-identity store; the check precedes any existence
check or payload validation (the equivalence holds for every store, id and
payload) and no store mutation happens in that case. -/
theorem C4_auth_iff (teachers : List String) (store : List Announcement)
    (i : String) (payload : Payload) (tu : Option String) (newId : String) :
    ((create_announcement teachers store payload tu newId).1 = .error .unauthorized
      ↔ authRejected teachers tu)
    ∧ ((update_announcement teachers store i payload tu).1 = .error .unauthorized
      ↔ authRejected teachers tu)
    ∧ ((delete_announcement teachers store i tu).1 = .error .unauthorized
      ↔ authRejected teachers tu)
    ∧ (authRejected teachers tu →
        (create_announcement teachers store payload tu newId).2 = store
        ∧ (update_announcement teachers store i payload tu).2 = store
        ∧ (delete_announcement teachers store i tu).2 = store) := by
  cases tu with
  | none =>
    simp [create_announcement, update_announcement, delete_announcement,
      pyFalsy, authRejected]
  | some u =>
    by_cases hu : u = ""
    · subst hu
      simp [create_announcement, update_announcement, delete_announcement,
        pyFalsy, authRejected]
    · by_cases hmem : u ∈ teachers
      · have hrej : ¬ authRejected teachers (some u) := by
          simp [authRejected, hu, hmem]
        exact ⟨iff_of_false (create_not_unauthorized teachers store payload u newId hu hmem) hrej,
          iff_of_false (update_not_unauthorized teachers store i payload u hu hmem) hrej,
          iff_of_false (delete_not_unauthorized teachers store i u hu hmem) hrej,
          fun h => absurd h hrej⟩
      · have h1 : pyFalsy (some u) = false := pyFalsy_false hu
        have h2 := teachersFindOne_isNone hmem
        have hrej : authRejected teachers (some u) := Or.inr hmem
        have hc : create_announcement teachers store payload (some u) newId
            = (.error .unauthorized, store) := by
          simp [create_announcement, h1, h2]
        have hup : update_announcement teachers store i payload (some u)
            = (.error .unauthorized, store) := by
          simp [update_announcement, h1, h2]
        have hdel : delete_announcement teachers store i (some u)
            = (.error .unauthorized, store) := by
          simp [delete_announcement, h1, h2]
        exact ⟨by simp [hc, hrej], by simp [hup, hrej], by simp [hdel, hrej],
          fun _ => ⟨by simp [hc], by simp [hup], by simp [hdel]⟩⟩

/-- Witness for the amended C4 at a concrete input: an absent identity is
rejected on `create` and leaves the store unchanged on `delete`. -/
theorem C4_auth_iff_witness :
    (create_announcement ["t"] [] ⟨none, none, some "2099-01-01"⟩ none "n").1
      = .error .unauthorized
    ∧ (delete_announcement ["t"] [] "x" none).2 = [] := by
  have h := C4_auth_iff ["t"] [] "x" ⟨none, none, some "2099-01-01"⟩ none "n"
  exact ⟨h.1.mpr trivial, (h.2.2.2 trivial).2.2⟩

/-- C5: whenever `create`, `update`, or `delete` terminates with an error,
the announcement store is left exactly as it was before the call; no error
path performs a partial mutation. -/
theorem C5_error_no_mutation (teachers : List String) (store : List Announcement)
    (i : String) (payload : Payload) (tu : Option String) (newId : String)
    (e : HTTPError) :
    ((create_announcement teachers store payload tu newId).1 = .error e →
      (create_announcement teachers store payload tu newId).2 = store)
    ∧ ((update_announcement teachers store i payload tu).1 = .error e →
      (update_announcement teachers store i payload tu).2 = store)
    ∧ ((delete_announcement teachers store i tu).1 = .error e →
      (delete_announcement teachers store i tu).2 = store) := by
  cases tu with
  | none =>
    simp [create_announcement, update_announcement, delete_announcement, pyFalsy]
  | some u =>
    by_cases hu : u = ""
    · subst hu
      simp [create_announcement, update_announcement, delete_announcement, pyFalsy]
    · have h1 : pyFalsy (some u) = false := pyFalsy_false hu
      by_cases hmem : u ∈ teachers
      · have h2 := teachersFindOne_not_isNone hmem
        refine ⟨?_, ?_, ?_⟩
        · cases hb : pyFalsy payload.expiration_date with
          | true => simp [create_announcement, h1, h2, hb]
          | false => simp [create_announcement, h1, h2, hb]
        · rcases hf : store.find? (fun d => d._id = i) with _ | d
          · simp [update_announcement, h1, h2, hf]
          · have hf2 := find?_updateFirst store i payload d hf
            simp [update_announcement, h1, h2, hf, hf2]
            split <;> simp
        · by_cases hfs : (store.find? (fun d => d._id = i)).isSome = true
          · simp [delete_announcement, h1, h2, hfs]
          · simp [delete_announcement, h1, h2, hfs]
      · have h2 := teachersFindOne_isNone hmem
        simp [create_announcement, update_announcement, delete_announcement, h1, h2]

/-- Witness for C5 at a concrete failing call: `delete` of a missing id
leaves the (empty) store unchanged. -/
theorem C5_error_no_mutation_witness :
    (delete_announcement ["t"] [] "x" (some "t")).2 = [] := by
  have h := C5_error_no_mutation ["t"] [] "x" ⟨none, none, none⟩ (some "t") "n"
    HTTPError.notFound
  exact h.2.2 rfl

/-- C8: for an existing announcement id (ids being unique, as MongoDB
enforces for `_id`) and an authorized caller, the first `delete` succeeds
with the confirmation message and removes exactly that record, and a second
`delete` of the same id fails with `NotFound`; absence of a matching record
is never a no-op success. -/
theorem C8_delete_twice (teachers : List String) (store : List Announcement)
    (i : String) (u : String) (d : Announcement)
    (hu : u ≠ "") (hmem : u ∈ teachers)
    (hd : d ∈ store) (hdi : d._id = i)
    (hnodup : (store.map (fun x => x._id)).Nodup) :
    (delete_announcement teachers store i (some u)).1 = .ok "Announcement deleted"
    ∧ (∀ x ∈ (delete_announcement teachers store i (some u)).2, x._id ≠ i)
    ∧ (∀ x ∈ store, x ≠ d → x ∈ (delete_announcement teachers store i (some u)).2)
    ∧ (delete_announcement teachers
        (delete_announcement teachers store i (some u)).2 i (some u)).1
        = .error .notFound := by
  have h1 : pyFalsy (some u) = false := pyFalsy_false hu
  have h2 := teachersFindOne_not_isNone hmem
  have hfind : store.find? (fun x => x._id = i) = some d :=
    find?_id_eq_some store i d hnodup hd hdi
  have hsome : (store.find? (fun x => x._id = i)).isSome = true := by
    simp [hfind]
  have hres : delete_announcement teachers store i (some u) =
      (.ok "Announcement deleted", eraseFirstId store i) := by
    simp [delete_announcement, h1, h2, hsome]
  have hspec := eraseFirstId_spec store i d hnodup hd hdi
  refine ⟨by simp [hres], ?_, ?_, ?_⟩
  · rw [hres]; exact hspec.1
  · rw [hres]; exact hspec.2
  · rw [hres]
    have hnone : (eraseFirstId store i).find? (fun x => x._id = i) = none :=
      List.find?_eq_none.mpr (fun x hx => by simpa using hspec.1 x hx)
    have hns : ((eraseFirstId store i).find? (fun x => x._id = i)).isSome = false := by
      simp [hnone]
    simp [delete_announcement, h1, h2, hns]

/-- Witness for C8 at a concrete one-element store. -/
theorem C8_delete_twice_witness :
    (delete_announcement ["t"]
      [{ _id := "a1", text := none, start_date := none,
         expiration_date := some "2030-01-01", created_by := some "t" }]
      "a1" (some "t")).1 = .ok "Announcement deleted"
    ∧ (delete_announcement ["t"]
        (delete_announcement ["t"]
          [{ _id := "a1", text := none, start_date := none,
             expiration_date := some "2030-01-01", created_by := some "t" }]
          "a1" (some "t")).2
        "a1" (some "t")).1 = .error .notFound := by
  have h := C8_delete_twice ["t"]
    [{ _id := "a1", text := none, start_date := none,
       expiration_date := some "2030-01-01", created_by := some "t" }]
    "a1" "t"
    { _id := "a1", text := none, start_date := none,
      expiration_date := some "2030-01-01", created_by := some "t" }
    (by decide) (by simp) (by simp) rfl (by simp)
  exact ⟨h.1, h.2.2.2⟩

/-- C3: for an existing announcement (ids unique) and an authorized caller,
`update` replaces exactly those of `text`, `start_date`, `expiration_date`
for which the payload supplies a non-null value, leaves fields absent or
null in the payload untouched, and never modifies `_id` or `created_by`;
the body is the post-update record re-read from the store. -/
theorem C3_update_frame (teachers : List String) (store : List Announcement)
    (i : String) (payload : Payload) (u : String) (d : Announcement)
    (hu : u ≠ "") (hmem : u ∈ teachers)
    (hd : d ∈ store) (hdi : d._id = i)
    (hnodup : (store.map (fun x => x._id)).Nodup)
    (hflds : payload.text ≠ none ∨ payload.start_date ≠ none
      ∨ payload.expiration_date ≠ none) :
    update_announcement teachers store i payload (some u) =
      (.ok { id := d._id
             text := if payload.text = none then d.text else payload.text
             start_date :=
               if payload.start_date = none then d.start_date else payload.start_date
             expiration_date :=
               if payload.expiration_date = none then d.expiration_date
               else payload.expiration_date
             created_by := d.created_by },
       store.map (fun x =>
         if x._id = i then
           { _id := x._id
             text := if payload.text = none then x.text else payload.text
             start_date :=
               if payload.start_date = none then x.start_date else payload.start_date
             expiration_date :=
               if payload.expiration_date = none then x.expiration_date
               else payload.expiration_date
             created_by := x.created_by }
         else x)) := by
  have h1 : pyFalsy (some u) = false := pyFalsy_false hu
  have h2 := teachersFindOne_not_isNone hmem
  have hfind : store.find? (fun x => x._id = i) = some d :=
    find?_id_eq_some store i d hnodup hd hdi
  have hf2 := find?_updateFirst store i payload d hfind
  have happ : ∀ x : Announcement, applySet payload x =
      { _id := x._id
        text := if payload.text = none then x.text else payload.text
        start_date :=
          if payload.start_date = none then x.start_date else payload.start_date
        expiration_date :=
          if payload.expiration_date = none then x.expiration_date
          else payload.expiration_date
        created_by := x.created_by } := by
    intro x
    unfold applySet
    cases hpt : payload.text <;> cases hps : payload.start_date <;>
      cases hpe : payload.expiration_date <;> simp
  have hcond : ¬((payload.text = none ∧ payload.start_date = none)
      ∧ payload.expiration_date = none) := by
    rcases hflds with h | h | h <;> simp [h]
  have hres : update_announcement teachers store i payload (some u) =
      (.ok (_serialize (applySet payload d)), updateFirst store i payload) := by
    simp [update_announcement, h1, h2, hfind, hf2, hcond]
  rw [hres, updateFirst_eq_map store i payload hnodup]
  have hfun : (fun x => if x._id = i then applySet payload x else x)
      = (fun x : Announcement =>
          if x._id = i then
            { _id := x._id
              text := if payload.text = none then x.text else payload.text
              start_date :=
                if payload.start_date = none then x.start_date else payload.start_date
              expiration_date :=
                if payload.expiration_date = none then x.expiration_date
                else payload.expiration_date
              created_by := x.created_by }
          else x) := by
    funext x
    rw [happ x]
  rw [hfun, happ d]
  rfl

/-- Witness for C3: updating with only a new `text` changes only `text`. -/
theorem C3_update_frame_witness :
    update_announcement ["t"]
      [{ _id := "a1", text := some "old", start_date := some "2020-01-01",
         expiration_date := some "2030-01-01", created_by := some "t" }]
      "a1" ⟨some "new", none, none⟩ (some "t")
      = (.ok { id := "a1", text := some "new", start_date := some "2020-01-01",
               expiration_date := some "2030-01-01", created_by := some "t" },
         [{ _id := "a1", text := some "new", start_date := some "2020-01-01",
            expiration_date := some "2030-01-01", created_by := some "t" }]) := by
  have h := C3_update_frame ["t"]
    [{ _id := "a1", text := some "old", start_date := some "2020-01-01",
       expiration_date := some "2030-01-01", created_by := some "t" }]
    "a1" ⟨some "new", none, none⟩ "t"
    { _id := "a1", text := some "old", start_date := some "2020-01-01",
      expiration_date := some "2030-01-01", created_by := some "t" }
    (by decide) (by simp) (by simp) rfl (by simp) (Or.inl (by simp))
  simpa using h

/-- C10: for an existing announcement (ids unique) and an authorized caller,
`update` with payload `{"expiration_date": ""}` succeeds and stores the
empty string as `expiration_date` (update rejects only null/absent values),
while `create` fails with `BadRequest` on any falsy `expiration_date` and a
successfully created record's `expiration_date` is never empty nor null. -/
theorem C10_update_empty_expiration (teachers : List String) (store : List Announcement)
    (i : String) (u : String) (d : Announcement)
    (hu : u ≠ "") (hmem : u ∈ teachers)
    (hd : d ∈ store) (hdi : d._id = i)
    (hnodup : (store.map (fun x => x._id)).Nodup) :
    (update_announcement teachers store i ⟨none, none, some ""⟩ (some u)).1
      = .ok { id := d._id, text := d.text, start_date := d.start_date,
              expiration_date := some "", created_by := d.created_by }
    ∧ (∃ d', d' ∈ (update_announcement teachers store i ⟨none, none, some ""⟩ (some u)).2
        ∧ d'._id = i ∧ d'.expiration_date = some "")
    ∧ (∀ (payload : Payload) (newId : String), payload.expiration_date = some "" →
        (create_announcement teachers store payload (some u) newId).1
          = .error .badRequest)
    ∧ (∀ (payload : Payload) (newId : String) (s : Serialized),
        (create_announcement teachers store payload (some u) newId).1 = .ok s →
        s.expiration_date ≠ some "" ∧ s.expiration_date ≠ none) := by
  have h1 : pyFalsy (some u) = false := pyFalsy_false hu
  have h2 := teachersFindOne_not_isNone hmem
  have hfind : store.find? (fun x => x._id = i) = some d :=
    find?_id_eq_some store i d hnodup hd hdi
  have hf2 := find?_updateFirst store i ⟨none, none, some ""⟩ d hfind
  have hres : update_announcement teachers store i ⟨none, none, some ""⟩ (some u)
      = (.ok (_serialize (applySet ⟨none, none, some ""⟩ d)),
         updateFirst store i ⟨none, none, some ""⟩) := by
    simp [update_announcement, h1, h2, hfind, hf2]
  refine ⟨?_, ?_, ?_, ?_⟩
  · rw [hres]
    simp [applySet, _serialize]
  · refine ⟨applySet ⟨none, none, some ""⟩ d, ?_, ?_, rfl⟩
    · rw [hres, updateFirst_eq_map store i ⟨none, none, some ""⟩ hnodup]
      have hm := List.mem_map_of_mem
        (fun x => if x._id = i then applySet ⟨none, none, some ""⟩ x else x) hd
      simpa [hdi] using hm
    · rw [applySet_id]; exact hdi
  · intro payload newId hexp
    have hp : pyFalsy payload.expiration_date = true := by rw [hexp]; rfl
    simp [create_announcement, h1, h2, hp]
  · intro payload newId s hok
    cases hx : payload.expiration_date with
    | none =>
      have hp : pyFalsy payload.expiration_date = true := by rw [hx]; rfl
      simp [create_announcement, h1, h2, hp] at hok
    | some v =>
      by_cases hv : v = ""
      · subst hv
        have hp : pyFalsy payload.expiration_date = true := by rw [hx]; rfl
        simp [create_announcement, h1, h2, hp] at hok
      · have hb : pyFalsy payload.expiration_date = false := by
          rw [hx]; simp [pyFalsy, hv]
        have hc : (create_announcement teachers store payload (some u) newId).1
            = .ok (_serialize
                { _id := newId
                  text := payload.text
                  start_date := payload.start_date
                  expiration_date := payload.expiration_date
                  created_by := some u }) := by
          simp [create_announcement, h1, h2, hb]
        rw [hc] at hok
        injection hok with h'
        subst h'
        simp [_serialize, hx, hv]

/-- Witness for C10: a concrete update stores the empty expiration date the
concrete create rejects. -/
theorem C10_update_empty_expiration_witness :
    (update_announcement ["t"]
      [{ _id := "a1", text := some "x", start_date := none,
         expiration_date := some "2030-01-01", created_by := some "t" }]
      "a1" ⟨none, none, some ""⟩ (some "t")).1
      = .ok { id := "a1", text := some "x", start_date := none,
              expiration_date := some "", created_by := some "t" }
    ∧ (create_announcement ["t"]
        [{ _id := "a1", text := some "x", start_date := none,
           expiration_date := some "2030-01-01", created_by := some "t" }]
        ⟨none, none, some ""⟩ (some "t") "n").1 = .error .badRequest := by
  have h := C10_update_empty_expiration ["t"]
    [{ _id := "a1", text := some "x", start_date := none,
       expiration_date := some "2030-01-01", created_by := some "t" }]
    "a1" "t"
    { _id := "a1", text := some "x", start_date := none,
      expiration_date := some "2030-01-01", created_by := some "t" }
    (by decide) (by simp) (by simp) rfl (by simp)
  exact ⟨h.1, h.2.2.1 ⟨none, none, some ""⟩ "n" rfl⟩

end Announcements
